import Mathlib

/-!
Shallow embedding of the session/token lifecycle of the bca-authkit
repository: the secure credential store (`storage.ts`), the session clock,
the stateless auth gateway (`api.ts`) and the session controller
(`context.tsx`).  Timestamps are integers (milliseconds, as in JS
`Date.now()`); JS truthiness of optional strings is modelled explicitly;
asynchronous operations become pure functions from explicit state and
stubbed external responses to a result record that also carries the list
of primitive effects the operation performed, in order.
-/

namespace AuthKit

/-- JS truthiness of an optional string: `undefined` and `""` are falsy. -/
def jsTruthyS : Option String → Bool
  | none => false
  | some s => s != ""

/-- `User` from types.ts. -/
structure User where
  id : String
  email : String
  name : String
  avatar : Option String
  role : Option String
  permissions : Option (List String)
deriving DecidableEq, Repr

/-- `AuthTokens` from types.ts; `expiresAt` is an absolute ms timestamp. -/
structure AuthTokens where
  accessToken : String
  refreshToken : Option String
  idToken : Option String
  expiresAt : Int
deriving DecidableEq, Repr

/-- The credential pair stored by the biometric flow (storage.ts). -/
structure BiometricCredentials where
  email : String
  hashedPassword : String
deriving DecidableEq, Repr

/-- The persisted two-tier key-value state: the SecureStore keys
`bca_auth_tokens`, `bca_refresh_token`, `bca_biometric_credentials` and the
AsyncStorage keys `bca_auth_user`, `bca_biometric_enabled` (stored as the
string "true"/"false"). JSON serialization of a record round-trips, so a
stored value is modelled as the record itself. -/
structure Store where
  tokens : Option AuthTokens
  refreshTok : Option String
  user : Option User
  biometricEnabled : Option String
  biometricCreds : Option BiometricCredentials
deriving DecidableEq, Repr

/-- The store with every key absent. -/
def emptyStore : Store :=
  { tokens := none, refreshTok := none, user := none,
    biometricEnabled := none, biometricCreds := none }

/-- `AuthStorage.storeTokens` (fault-free path): writes the whole record
under the tokens key and, only when the record's refresh token is truthy,
also writes it under the separate refresh-token key. -/
def storeTokensS (t : AuthTokens) (st : Store) : Store :=
  { st with
    tokens := some t,
    refreshTok := if jsTruthyS t.refreshToken then t.refreshToken else st.refreshTok }

/-- `AuthStorage.getTokens`: reads the tokens record; a truthy separately
stored refresh token overrides the record's own `refreshToken` field. -/
def getTokensS (st : Store) : Option AuthTokens :=
  match st.tokens with
  | none => none
  | some t =>
      some { t with
             refreshToken :=
               if jsTruthyS st.refreshTok then st.refreshTok else t.refreshToken }

/-- `AuthStorage.clearTokens`: deletes both token keys (never raises). -/
def clearTokensS (st : Store) : Store :=
  { st with tokens := none, refreshTok := none }

/-- `AuthStorage.storeUser`. -/
def storeUserS (u : User) (st : Store) : Store :=
  { st with user := some u }

/-- `AuthStorage.getUser`. -/
def getUserS (st : Store) : Option User :=
  st.user

/-- `AuthStorage.clearUser`. -/
def clearUserS (st : Store) : Store :=
  { st with user := none }

/-- `AuthStorage.isBiometricEnabled`: `enabled === 'true'`. -/
def isBiometricEnabledS (st : Store) : Bool :=
  st.biometricEnabled == some "true"

/-- `AuthStorage.setBiometricEnabled`: writes the string "true"/"false". -/
def setBiometricEnabledS (b : Bool) (st : Store) : Store :=
  { st with biometricEnabled := some (if b then "true" else "false") }

/-- `AuthStorage.storeBiometricCredentials`. -/
def storeBiometricCredentialsS (c : BiometricCredentials) (st : Store) : Store :=
  { st with biometricCreds := some c }

/-- `AuthStorage.getBiometricCredentials`. -/
def getBiometricCredentialsS (st : Store) : Option BiometricCredentials :=
  st.biometricCreds

/-- `AuthStorage.clearAll`: deletes the token keys, the user key, the
biometric-enabled flag and the biometric credentials (never raises). -/
def clearAllS (_st : Store) : Store :=
  emptyStore

/-- `AuthStorage.isTokenExpired`: `Date.now() >= tokens.expiresAt`. -/
def isTokenExpired (t : AuthTokens) (now : Int) : Bool :=
  decide (now ≥ t.expiresAt)

/-- The 5-minute skew used by `isTokenExpiringSoon`, in milliseconds. -/
def fiveMinutesMs : Int := 5 * 60 * 1000

/-- `AuthStorage.isTokenExpiringSoon`: `Date.now() >= expiresAt - 5 min`. -/
def isTokenExpiringSoon (t : AuthTokens) (now : Int) : Bool :=
  decide (now ≥ t.expiresAt - fiveMinutesMs)

/-- Outcome of a single storage write. -/
inductive WriteResult where
  | ok : WriteResult
  | storageFailure (msg : String) : WriteResult
deriving DecidableEq, Repr

/-- Where the underlying secure store faults during `storeTokens`. -/
inductive FaultPoint where
  | noFault : FaultPoint
  | atTokensWrite : FaultPoint
  | atRefreshWrite : FaultPoint
deriving DecidableEq, Repr

/-- `AuthStorage.storeTokens` with an explicit fault point: the first
`setItemAsync` writes the whole record, the second (only reached when the
refresh token is truthy) writes the refresh token; a fault at either point
is caught and re-raised as the storage failure message, leaving whatever
writes already landed in place. -/
def storeTokensFault (fp : FaultPoint) (t : AuthTokens) (st : Store) :
    WriteResult × Store :=
  match fp with
  | .atTokensWrite =>
      (.storageFailure "Failed to store authentication tokens", st)
  | .atRefreshWrite =>
      if jsTruthyS t.refreshToken then
        (.storageFailure "Failed to store authentication tokens",
         { st with tokens := some t })
      else
        (.ok, { st with tokens := some t })
  | .noFault => (.ok, storeTokensS t st)

/-- Result of a gateway request or an external challenge: either the mapped
value or a raised error message. -/
inductive ApiResult (α : Type) where
  | success (v : α) : ApiResult α
  | failure (msg : String) : ApiResult α
deriving DecidableEq, Repr

/-- OAuth client entry of `AuthConfig` (types.ts). -/
structure OAuthClient where
  clientId : String
deriving DecidableEq, Repr

/-- `AuthConfig` from types.ts (the fields the lifecycle consults). -/
structure AuthConfig where
  apiBaseUrl : String
  sessionTimeout : Int
  enableBiometrics : Bool
  enableAutoRefresh : Bool
  oauthGoogle : Option OAuthClient
  oauthMicrosoft : Option OAuthClient
deriving DecidableEq, Repr

/-- `LoginResponse` of api.ts: login-style endpoints always map a user. -/
structure LoginResponse where
  user : User
  tokens : AuthTokens
deriving DecidableEq, Repr

/-- Refresh response: the server may omit the user (`data.user` undefined). -/
structure RefreshResponse where
  user : Option User
  tokens : AuthTokens
deriving DecidableEq, Repr

/-- A gateway method body before its own try/catch: `AuthAPI.config` is a
private static field that is `undefined` until `AuthAPI` is configured, so
reading `this.config.apiBaseUrl` raises a TypeError before any request is
made; otherwise the stubbed transport/mapping outcome `resp` is produced. -/
def apiRequest {α : Type} (cfg : Option AuthConfig) (resp : ApiResult α) :
    ApiResult α :=
  match cfg with
  | none => .failure "TypeError: cannot read apiBaseUrl of undefined"
  | some _ => resp

/-- `AuthAPI.login`: the catch logs and re-raises, so the fault surfaces. -/
def apiLogin (cfg : Option AuthConfig) (resp : ApiResult LoginResponse) :
    ApiResult LoginResponse :=
  apiRequest cfg resp

/-- `AuthAPI.loginWithHash`: catch logs and re-raises. -/
def apiLoginWithHash (cfg : Option AuthConfig) (resp : ApiResult LoginResponse) :
    ApiResult LoginResponse :=
  apiRequest cfg resp

/-- `AuthAPI.refreshToken`: catch logs and re-raises. -/
def apiRefreshToken (cfg : Option AuthConfig) (resp : ApiResult RefreshResponse) :
    ApiResult RefreshResponse :=
  apiRequest cfg resp

/-- `AuthAPI.getProfile`: catch logs and re-raises. -/
def apiGetProfile (cfg : Option AuthConfig) (resp : ApiResult User) :
    ApiResult User :=
  apiRequest cfg resp

/-- `AuthAPI.logout`: the whole body sits in a try whose catch only logs
("local cleanup is more important"), so every fault — the undefined-config
TypeError included — is swallowed and the method completes normally. -/
def apiLogout (cfg : Option AuthConfig) (resp : ApiResult Unit) :
    ApiResult Unit :=
  match apiRequest cfg resp with
  | .success _ => .success ()
  | .failure _ => .success ()

/-- In-memory controller state of the `AuthProvider` (context.tsx). -/
structure Ctrl where
  user : Option User
  tokens : Option AuthTokens
  isLoading : Bool
  error : Option String
deriving DecidableEq, Repr

/-- The provider's initial state: `useState(null/null/true/null)`. -/
def initCtrl : Ctrl :=
  { user := none, tokens := none, isLoading := true, error := none }

/-- `isAuthenticated = !!user && !!tokens && !isTokenExpired(tokens)`. -/
def isAuthenticated (c : Ctrl) (now : Int) : Bool :=
  c.user.isSome && c.tokens.isSome &&
    match c.tokens with
    | some t => !(isTokenExpired t now)
    | none => false

/-- Primitive effects a controller operation performs, in order. -/
inductive Eff where
  | setLoading (b : Bool) : Eff
  | setErrorE (e : Option String) : Eff
  | setUserE (u : Option User) : Eff
  | setTokensE (t : Option AuthTokens) : Eff
  | apiLoginCall : Eff
  | apiLoginHashCall (email : String) : Eff
  | apiGoogleCall : Eff
  | apiMicrosoftCall : Eff
  | apiRefreshCall (rt : String) : Eff
  | apiLogoutCall (tk : String) : Eff
  | biometricChallenge : Eff
  | storeTokensW (t : AuthTokens) : Eff
  | storeUserW (u : User) : Eff
  | setBiometricW (b : Bool) : Eff
  | storeBiometricCredsW (bc : BiometricCredentials) : Eff
  | clearAllW : Eff
deriving DecidableEq, Repr

/-- Result of one controller operation: the effect trace, the final
in-memory state, the final persisted state, and the raised error (none
when the operation returned normally). -/
structure OpResult where
  trace : List Eff
  ctrl : Ctrl
  store : Store
  raised : Option String
deriving DecidableEq, Repr

/-- The number of gateway refresh calls an effect trace performs. -/
def countRefreshCalls (tr : List Eff) : Nat :=
  tr.countP (fun e => match e with | .apiRefreshCall _ => true | _ => false)

/-- `logout` of context.tsx: set loading, best-effort remote logout when
tokens exist (its failure is swallowed inside `AuthAPI.logout`), clear all
storage, null out user/tokens/error, and always end with loading false;
nothing in the body can raise, so it never raises to its caller. -/
def logoutOp (c : Ctrl) (st : Store) : OpResult :=
  let remote : List Eff :=
    match c.tokens with
    | some tk => [.apiLogoutCall tk.accessToken]
    | none => []
  { trace := [.setLoading true] ++ remote ++
      [.clearAllW, .setUserE none, .setTokensE none, .setErrorE none,
       .setLoading false]
    ctrl := { user := none, tokens := none, isLoading := false, error := none }
    store := clearAllS st
    raised := none }

/-- The refresh token `refreshToken` consults: `tokens?.refreshToken` read
from the controller's in-memory state, not from storage. -/
def currentRefreshToken (c : Ctrl) : Option String :=
  c.tokens.bind (fun t => t.refreshToken)

/-- The catch branch of `refreshToken`: run `logout()` then re-raise. -/
def refreshFailPath (msg : String) (pre : List Eff) (c : Ctrl) (st : Store) :
    OpResult :=
  let lr := logoutOp c st
  { trace := pre ++ lr.trace, ctrl := lr.ctrl, store := lr.store,
    raised := some msg }

/-- `refreshToken` of context.tsx: throws when the in-memory state holds no
truthy refresh token; otherwise calls the gateway, persists and adopts the
new tokens (and the user when one is returned). Any failure runs a full
`logout()` and re-raises. It never touches the loading flag itself. -/
def refreshTokenOp (resp : ApiResult RefreshResponse) (c : Ctrl) (st : Store) :
    OpResult :=
  match currentRefreshToken c with
  | none => refreshFailPath "No refresh token available" [] c st
  | some rt =>
      if rt = "" then refreshFailPath "No refresh token available" [] c st
      else
        match resp with
        | .failure msg => refreshFailPath msg [.apiRefreshCall rt] c st
        | .success r =>
            let st1 := storeTokensS r.tokens st
            let c1 := { c with tokens := some r.tokens }
            match r.user with
            | some u =>
                { trace := [.apiRefreshCall rt, .storeTokensW r.tokens,
                            .setTokensE (some r.tokens), .storeUserW u,
                            .setUserE (some u)]
                  ctrl := { c1 with user := some u }
                  store := storeUserS u st1
                  raised := none }
            | none =>
                { trace := [.apiRefreshCall rt, .storeTokensW r.tokens,
                            .setTokensE (some r.tokens)]
                  ctrl := c1, store := st1, raised := none }

/-- The common catch/finally tail of the login-style operations: set the
error message (`error.message || fallback`), re-raise, and end with
loading false. -/
def loginCatch (pre : List Eff) (msg fallback : String) (c : Ctrl) (st : Store) :
    OpResult :=
  let em := if msg = "" then fallback else msg
  { trace := pre ++ [.setErrorE (some em), .setLoading false]
    ctrl := { c with error := some em, isLoading := false }
    store := st
    raised := some msg }

/-- The common success tail of the login-style operations: persist and
adopt the returned tokens and user, end with loading false. -/
def loginAdopt (pre : List Eff) (r : LoginResponse) (st : Store) : OpResult :=
  { trace := pre ++ [.storeTokensW r.tokens, .storeUserW r.user,
      .setTokensE (some r.tokens), .setUserE (some r.user), .setLoading false]
    ctrl := { user := some r.user, tokens := some r.tokens,
              isLoading := false, error := none }
    store := storeUserS r.user (storeTokensS r.tokens st)
    raised := none }

/-- `login` of context.tsx: loading true, error cleared, gateway login,
then persist + adopt on success or set error + re-raise on failure; the
finally always restores loading false. -/
def loginOp (resp : ApiResult LoginResponse) (c : Ctrl) (st : Store) :
    OpResult :=
  let entry : List Eff := [.setLoading true, .setErrorE none]
  match resp with
  | .success r => loginAdopt (entry ++ [.apiLoginCall]) r st
  | .failure msg =>
      loginCatch (entry ++ [.apiLoginCall]) msg "Login failed"
        { c with error := none } st

/-- `loginWithBiometrics` of context.tsx: requires the enabled flag and a
stored credential, then the platform biometric challenge, then
`AuthAPI.loginWithHash` with the stored credential. -/
def loginWithBiometricsOp (challenge : ApiResult Unit)
    (resp : ApiResult LoginResponse) (c : Ctrl) (st : Store) : OpResult :=
  let entry : List Eff := [.setLoading true, .setErrorE none]
  let c0 := { c with error := none }
  if isBiometricEnabledS st = false then
    loginCatch entry "Biometric authentication is not enabled"
      "Biometric login failed" c0 st
  else
    match getBiometricCredentialsS st with
    | none =>
        loginCatch entry "No biometric credentials found"
          "Biometric login failed" c0 st
    | some creds =>
        match challenge with
        | .failure m =>
            loginCatch (entry ++ [.biometricChallenge]) m
              "Biometric login failed" c0 st
        | .success _ =>
            let pre := entry ++ [.biometricChallenge,
              .apiLoginHashCall creds.email]
            match resp with
            | .success r => loginAdopt pre r st
            | .failure msg => loginCatch pre msg "Biometric login failed" c0 st

/-- `loginWithGoogle` of context.tsx: requires
`config.oauth?.google?.clientId` to be truthy, then the gateway's Google
flow (browser session + code exchange, stubbed as one outcome). -/
def loginWithGoogleOp (cfg : AuthConfig) (resp : ApiResult LoginResponse)
    (c : Ctrl) (st : Store) : OpResult :=
  let entry : List Eff := [.setLoading true, .setErrorE none]
  let c0 := { c with error := none }
  if jsTruthyS (cfg.oauthGoogle.map (fun g => g.clientId)) = false then
    loginCatch entry "Google OAuth is not configured" "Google login failed"
      c0 st
  else
    match resp with
    | .success r => loginAdopt (entry ++ [.apiGoogleCall]) r st
    | .failure msg =>
        loginCatch (entry ++ [.apiGoogleCall]) msg "Google login failed" c0 st

/-- `loginWithMicrosoft` of context.tsx: same shape as the Google flow. -/
def loginWithMicrosoftOp (cfg : AuthConfig) (resp : ApiResult LoginResponse)
    (c : Ctrl) (st : Store) : OpResult :=
  let entry : List Eff := [.setLoading true, .setErrorE none]
  let c0 := { c with error := none }
  if jsTruthyS (cfg.oauthMicrosoft.map (fun g => g.clientId)) = false then
    loginCatch entry "Microsoft OAuth is not configured"
      "Microsoft login failed" c0 st
  else
    match resp with
    | .success r => loginAdopt (entry ++ [.apiMicrosoftCall]) r st
    | .failure msg =>
        loginCatch (entry ++ [.apiMicrosoftCall]) msg "Microsoft login failed"
          c0 st

/-- `disableBiometrics` of context.tsx: only sets the enabled flag to
false; it does not delete the stored biometric credential and does not
touch the loading flag. -/
def disableBiometricsOp (c : Ctrl) (st : Store) : OpResult :=
  { trace := [.setBiometricW false]
    ctrl := c
    store := setBiometricEnabledS false st
    raised := none }

/-- Result of `enableBiometrics`, which returns a boolean. -/
structure EnableResult where
  returned : Bool
  ctrl : Ctrl
  store : Store
deriving DecidableEq, Repr

/-- `BiometricAuth.checkCapabilities` result (biometric.ts). -/
structure BiometricCapabilities where
  isAvailable : Bool
  hasHardware : Bool
  isEnrolled : Bool
deriving DecidableEq, Repr

/-- `enableBiometrics` of context.tsx: requires available hardware, a
passed consent challenge and a truthy `user?.email`; then it stores a
`BiometricCredentials` whose `hashedPassword` is the literal string
`"hashed_password_placeholder"` (the user's password is never consulted),
sets the enabled flag and returns true; every failure is caught, recorded
in `error` and returned as false. -/
def enableBiometricsOp (caps : BiometricCapabilities)
    (consent : ApiResult Unit) (c : Ctrl) (st : Store) : EnableResult :=
  if caps.isAvailable = false then
    { returned := false
      ctrl := { c with error := some "Biometric authentication is not available" }
      store := st }
  else
    match consent with
    | .failure m =>
        let em := if m = "" then "Failed to enable biometrics" else m
        { returned := false
          ctrl := { c with error := some em }
          store := st }
    | .success _ =>
        match c.user with
        | none =>
            { returned := false
              ctrl := { c with error := some "User email not available" }
              store := st }
        | some u =>
            if u.email = "" then
              { returned := false
                ctrl := { c with error := some "User email not available" }
                store := st }
            else
              let creds : BiometricCredentials :=
                { email := u.email,
                  hashedPassword := "hashed_password_placeholder" }
              { returned := true
                ctrl := c
                store := setBiometricEnabledS true
                  (storeBiometricCredentialsS creds st) }

/-- `initializeAuth` of context.tsx, run from the provider's first effect:
loads stored tokens and user, adopts them when both are present and the
tokens are unexpired; when stored tokens are expired it tries
`refreshToken()` — which reads the refresh token from the in-memory state
`initCtrl`, still empty at this point — and on its failure runs `logout()`;
the finally always clears loading. -/
def initializeAuthOp (now : Int) (refreshResp : ApiResult RefreshResponse)
    (st : Store) : OpResult :=
  let c := initCtrl
  match getTokensS st with
  | some t =>
      if isTokenExpired t now = false then
        match getUserS st with
        | some u =>
            { trace := [.setLoading true, .setTokensE (some t),
                .setUserE (some u), .setLoading false]
              ctrl := { user := some u, tokens := some t,
                        isLoading := false, error := none }
              store := st, raised := none }
        | none =>
            { trace := [.setLoading true, .setLoading false]
              ctrl := { c with isLoading := false }, store := st,
              raised := none }
      else
        let r := refreshTokenOp refreshResp c st
        match r.raised with
        | some _ =>
            let lr := logoutOp r.ctrl r.store
            { trace := [.setLoading true] ++ r.trace ++ lr.trace ++
                [.setLoading false]
              ctrl := { lr.ctrl with isLoading := false }
              store := lr.store, raised := none }
        | none =>
            { trace := [.setLoading true] ++ r.trace ++ [.setLoading false]
              ctrl := { r.ctrl with isLoading := false }
              store := r.store, raised := none }
  | none =>
      { trace := [.setLoading true, .setLoading false]
        ctrl := { c with isLoading := false }, store := st, raised := none }

/-- A sample user record. -/
def sampleUser : User :=
  { id := "u1", email := "a@b.com", name := "Alice", avatar := none,
    role := none, permissions := none }

/-- A token record that is expired at time 1000000 and carries a valid
refresh token. -/
def expiredTokens : AuthTokens :=
  { accessToken := "old_access", refreshToken := some "valid_rt",
    idToken := none, expiresAt := 999000 }

/-- The fresh token record a successful gateway refresh would return. -/
def freshTokens : AuthTokens :=
  { accessToken := "fresh_access", refreshToken := some "valid_rt",
    idToken := none, expiresAt := 5000000 }

/-- Spec scenario C: stored expired tokens with a valid refresh token and
a stored matching user. -/
def scenarioCStore : Store :=
  { tokens := some expiredTokens, refreshTok := some "valid_rt",
    user := some sampleUser, biometricEnabled := none,
    biometricCreds := none }

/-- A store that still holds a stale separately stored refresh token. -/
def staleStore : Store :=
  { tokens := none, refreshTok := some "stale", user := none,
    biometricEnabled := none, biometricCreds := none }

/-- A token record without a refresh token (well-formed: the field is
optional in the data model). -/
def noRefreshTokens : AuthTokens :=
  { accessToken := "acc", refreshToken := none, idToken := none,
    expiresAt := 0 }

/-- Previously stored token record. -/
def oldTokens : AuthTokens :=
  { accessToken := "old", refreshToken := some "old_rt", idToken := none,
    expiresAt := 100 }

/-- Replacement token record being written. -/
def newTokens : AuthTokens :=
  { accessToken := "new", refreshToken := some "new_rt", idToken := none,
    expiresAt := 200 }

/-- A store holding the previous token record and its refresh token. -/
def priorStore : Store :=
  { tokens := some oldTokens, refreshTok := some "old_rt", user := none,
    biometricEnabled := none, biometricCreds := none }

/-- A store with biometrics enabled and a stored credential. -/
def bioStore : Store :=
  { tokens := none, refreshTok := none, user := none,
    biometricEnabled := some "true",
    biometricCreds := some { email := "a@b.com", hashedPassword := "h" } }

/-- A controller state holding a user and tokens with a refresh token. -/
def authedCtrl : Ctrl :=
  { user := some sampleUser, tokens := some expiredTokens,
    isLoading := false, error := none }

/-- Biometric capabilities reporting available hardware. -/
def availableCaps : BiometricCapabilities :=
  { isAvailable := true, hasHardware := true, isEnrolled := true }

end AuthKit

namespace AuthKit

/-- C9: for all token records and times, `isTokenExpired` is exactly
`now >= expiresAt`, and `isTokenExpiringSoon` is true everywhere on the
window `[expiresAt - 300000 ms, expiresAt)` and false strictly below it
(300000 ms = 300 s, the fixed 5-minute skew). -/
theorem c9_session_clock (t : AuthTokens) (now : Int) :
    (isTokenExpired t now = true ↔ now ≥ t.expiresAt) ∧
    (t.expiresAt - 300000 ≤ now → now < t.expiresAt →
      isTokenExpiringSoon t now = true) ∧
    (now < t.expiresAt - 300000 → isTokenExpiringSoon t now = false) := by
  refine ⟨?_, ?_, ?_⟩ <;>
    simp [isTokenExpired, isTokenExpiringSoon, fiveMinutesMs] <;> omega

/-- C9 witness: the window bounds evaluated at concrete times around an
expiry of 1000000 ms. -/
theorem c9_session_clock_witness :
    isTokenExpiringSoon expiredTokens 800000 = true ∧
    isTokenExpiringSoon expiredTokens 600000 = false := by
  constructor
  · exact (c9_session_clock expiredTokens 800000).2.1 (by decide) (by decide)
  · exact (c9_session_clock expiredTokens 600000).2.2 (by decide)

/-- C2 counterexample: with a stale separately stored refresh token in the
prior store, storing a well-formed record with no refresh token and
reading it back yields a different record (the stale refresh token is
attached to it). -/
theorem c2_counterexample :
    getTokensS (storeTokensS noRefreshTokens staleStore) ≠
      some noRefreshTokens := by
  decide

/-- C2 (amended): the round-trip `storeTokens r; getTokens = r` holds
whenever `r` carries a truthy refresh token, or the prior store holds no
truthy separately stored refresh token; `clearTokens; getTokens = absent`
holds unconditionally. -/
theorem c2_store_roundtrip (st : Store) (r : AuthTokens)
    (h : jsTruthyS r.refreshToken = true ∨ jsTruthyS st.refreshTok = false) :
    getTokensS (storeTokensS r st) = some r ∧
    getTokensS (clearTokensS st) = none := by
  constructor
  · by_cases hr : jsTruthyS r.refreshToken = true
    · simp [getTokensS, storeTokensS, hr]
    · rcases h with h | h
      · exact absurd h hr
      · simp [getTokensS, storeTokensS, hr, h]
  · simp [getTokensS, clearTokensS]

/-- C2 witness: the round-trip at a record carrying a refresh token over
the store with a stale separately stored refresh token. -/
theorem c2_store_roundtrip_witness :
    getTokensS (storeTokensS oldTokens staleStore) = some oldTokens ∧
    getTokensS (clearTokensS staleStore) = none :=
  c2_store_roundtrip staleStore oldTokens (Or.inl (by decide))

/-- C3 counterexample: `AuthAPI.logout` called before the gateway is
configured does not fail at all — its internal catch swallows the
undefined-config fault and it completes normally. -/
theorem c3_counterexample :
    apiLogout none (ApiResult.failure "network down") =
      ApiResult.success () := by
  rfl

/-- C3 (amended): before the gateway is configured, `login`,
`loginWithHash`, `refreshToken` and `getProfile` fail — with the runtime
fault of reading the undefined config, not a distinguished NotInitialized
error — while `logout` swallows the fault and completes without error. -/
theorem c3_uninitialized_gateway (respL respH : ApiResult LoginResponse)
    (respR : ApiResult RefreshResponse) (respP : ApiResult User)
    (respO : ApiResult Unit) :
    apiLogin none respL =
      .failure "TypeError: cannot read apiBaseUrl of undefined" ∧
    apiLoginWithHash none respH =
      .failure "TypeError: cannot read apiBaseUrl of undefined" ∧
    apiRefreshToken none respR =
      .failure "TypeError: cannot read apiBaseUrl of undefined" ∧
    apiGetProfile none respP =
      .failure "TypeError: cannot read apiBaseUrl of undefined" ∧
    apiLogout none respO = .success () := by
  refine ⟨rfl, rfl, rfl, rfl, rfl⟩

/-- C4 counterexample: after `disableBiometrics` on a store holding a
biometric credential, the credential is still stored. -/
theorem c4_counterexample :
    (disableBiometricsOp authedCtrl bioStore).store.biometricCreds ≠
      none := by
  decide

/-- C4 (amended): `disableBiometrics` sets the biometric-enabled flag to
false and completes without raising, but leaves the stored
BiometricCredential untouched; the credential is deleted only by the full
`clearAll` performed on logout. -/
theorem c4_disable_biometrics (c : Ctrl) (st : Store) :
    (disableBiometricsOp c st).store.biometricCreds = st.biometricCreds ∧
    isBiometricEnabledS (disableBiometricsOp c st).store = false ∧
    (disableBiometricsOp c st).raised = none ∧
    (clearAllS st).biometricCreds = none := by
  refine ⟨rfl, rfl, rfl, rfl⟩

/-- C5 counterexample: a fault on the separate refresh-token write raises
the StorageFailure but leaves the main tokens key already overwritten:
the prior state is not untouched, and the record now observable through
`getTokens` is neither the previous one nor the new one. -/
theorem c5_counterexample :
    (storeTokensFault .atRefreshWrite newTokens priorStore).1 =
      .storageFailure "Failed to store authentication tokens" ∧
    (storeTokensFault .atRefreshWrite newTokens priorStore).2 ≠ priorStore ∧
    getTokensS (storeTokensFault .atRefreshWrite newTokens priorStore).2 ≠
      getTokensS priorStore ∧
    getTokensS (storeTokensFault .atRefreshWrite newTokens priorStore).2 ≠
      some newTokens := by
  decide

/-- C5 (amended): every fault during `storeTokens` surfaces as the
StorageFailure; a fault on the first write leaves the prior state
untouched, but a fault on the second (separate refresh-token) write leaves
the tokens key already overwritten, so a partially updated record is
observable; the fault-free path performs the full update. -/
theorem c5_store_tokens_fault (t : AuthTokens) (st : Store) :
    (storeTokensFault .atTokensWrite t st).1 =
      .storageFailure "Failed to store authentication tokens" ∧
    (storeTokensFault .atTokensWrite t st).2 = st ∧
    (jsTruthyS t.refreshToken = true →
      (storeTokensFault .atRefreshWrite t st).1 =
        .storageFailure "Failed to store authentication tokens" ∧
      (storeTokensFault .atRefreshWrite t st).2 =
        { st with tokens := some t }) ∧
    (storeTokensFault .noFault t st).1 = .ok ∧
    (storeTokensFault .noFault t st).2 = storeTokensS t st := by
  refine ⟨rfl, rfl, fun h => ?_, rfl, rfl⟩
  simp [storeTokensFault, h]

/-- C5 witness: the fault cases evaluated at the concrete replacement
record over the concrete prior store. -/
theorem c5_store_tokens_fault_witness :
    (storeTokensFault .atTokensWrite newTokens priorStore).2 = priorStore ∧
    (storeTokensFault .atRefreshWrite newTokens priorStore).2 =
      { priorStore with tokens := some newTokens } := by
  refine ⟨(c5_store_tokens_fault newTokens priorStore).2.1, ?_⟩
  exact ((c5_store_tokens_fault newTokens priorStore).2.2.1 (by decide)).2

/-- C7: whenever `refreshToken` raises — the gateway rejected, or no
truthy refresh token is present in the in-memory state — it has first run
the full local logout: the resulting controller state holds no user and no
tokens, and the store holds no token record, no separate refresh token and
no user record. -/
theorem c7_refresh_failure_logs_out (resp : ApiResult RefreshResponse)
    (c : Ctrl) (st : Store) (msg : String)
    (h : (refreshTokenOp resp c st).raised = some msg) :
    (refreshTokenOp resp c st).ctrl.user = none ∧
    (refreshTokenOp resp c st).ctrl.tokens = none ∧
    (refreshTokenOp resp c st).store.tokens = none ∧
    (refreshTokenOp resp c st).store.refreshTok = none ∧
    (refreshTokenOp resp c st).store.user = none := by
  unfold refreshTokenOp at *
  cases hrt : currentRefreshToken c with
  | none =>
      simp [hrt, refreshFailPath, logoutOp, clearAllS, emptyStore]
  | some rt =>
      simp only [hrt] at h ⊢
      by_cases he : rt = ""
      · simp [he, refreshFailPath, logoutOp, clearAllS, emptyStore]
      · cases resp with
        | failure m =>
            simp [he, refreshFailPath, logoutOp, clearAllS, emptyStore]
        | success r =>
            cases hu : r.user <;> simp [he, hu] at h

/-- C7 witness: a refresh attempted with no refresh token in the current
state raises and leaves memory and storage empty. -/
theorem c7_refresh_failure_logs_out_witness :
    (refreshTokenOp (ApiResult.success ⟨some sampleUser, freshTokens⟩)
        initCtrl scenarioCStore).ctrl.tokens = none ∧
    (refreshTokenOp (ApiResult.success ⟨some sampleUser, freshTokens⟩)
        initCtrl scenarioCStore).store.tokens = none := by
  have h := c7_refresh_failure_logs_out
    (ApiResult.success ⟨some sampleUser, freshTokens⟩) initCtrl scenarioCStore
    "No refresh token available" (by decide)
  exact ⟨h.2.1, h.2.2.1⟩

/-- C8: `logout` never raises to its caller (the remote logout call's
failure is swallowed inside `AuthAPI.logout`, which returns normally for
every configuration and transport outcome, and local cleanup is
unconditional), and it is idempotent: a second `logout` raises nothing and
produces the same terminal Unauthenticated state and the same store. -/
theorem c8_logout_idempotent (c : Ctrl) (st : Store)
    (cfg : Option AuthConfig) (resp : ApiResult Unit) :
    (logoutOp c st).raised = none ∧
    (logoutOp c st).ctrl.user = none ∧
    (logoutOp c st).ctrl.tokens = none ∧
    (logoutOp (logoutOp c st).ctrl (logoutOp c st).store).raised = none ∧
    (logoutOp (logoutOp c st).ctrl (logoutOp c st).store).ctrl =
      (logoutOp c st).ctrl ∧
    (logoutOp (logoutOp c st).ctrl (logoutOp c st).store).store =
      (logoutOp c st).store ∧
    apiLogout cfg resp = .success () := by
  refine ⟨rfl, rfl, rfl, rfl, rfl, rfl, ?_⟩
  cases cfg <;> cases resp <;> rfl

/-- Helper: a successful `enableBiometrics` run stored a credential whose
`hashedPassword` is the literal placeholder. -/
theorem enable_success_stores_placeholder (caps : BiometricCapabilities)
    (con : ApiResult Unit) (c : Ctrl) (st : Store)
    (h : (enableBiometricsOp caps con c st).returned = true) :
    ∃ e, (enableBiometricsOp caps con c st).store.biometricCreds =
      some { email := e, hashedPassword := "hashed_password_placeholder" } := by
  unfold enableBiometricsOp at *
  by_cases hc : caps.isAvailable = false
  · simp [hc] at h
  · cases con with
    | failure m => simp [hc] at h
    | success v =>
        cases hu : c.user with
        | none => simp [hc, hu] at h
        | some u =>
            by_cases he : u.email = ""
            · simp [hc, hu, he] at h
            · refine ⟨u.email, ?_⟩
              simp [hc, hu, he, setBiometricEnabledS,
                storeBiometricCredentialsS]

/-- C10: every successful `enableBiometrics` stores a credential whose
`hashedPassword` is the literal placeholder string — the user's actual
password never enters the flow — so any two successful runs, whatever the
sessions' inputs, store identical `hashedPassword` values. -/
theorem c10_placeholder_hash (capsA capsB : BiometricCapabilities)
    (conA conB : ApiResult Unit) (cA cB : Ctrl) (stA stB : Store)
    (hA : (enableBiometricsOp capsA conA cA stA).returned = true)
    (hB : (enableBiometricsOp capsB conB cB stB).returned = true) :
    (∃ e, (enableBiometricsOp capsA conA cA stA).store.biometricCreds =
      some { email := e, hashedPassword := "hashed_password_placeholder" }) ∧
    (∃ e, (enableBiometricsOp capsB conB cB stB).store.biometricCreds =
      some { email := e, hashedPassword := "hashed_password_placeholder" }) := by
  refine ⟨?_, ?_⟩ <;>
  · first
    | exact enable_success_stores_placeholder _ _ _ _ hA
    | exact enable_success_stores_placeholder _ _ _ _ hB

/-- C10 witness: a concrete successful enable run stores the placeholder. -/
theorem c10_placeholder_hash_witness :
    ∃ e, (enableBiometricsOp availableCaps (ApiResult.success ())
        authedCtrl staleStore).store.biometricCreds =
      some { email := e, hashedPassword := "hashed_password_placeholder" } :=
  (c10_placeholder_hash availableCaps availableCaps (ApiResult.success ())
    (ApiResult.success ()) authedCtrl authedCtrl staleStore staleStore
    (by decide) (by decide)).1

/-- C6 counterexample: `refreshToken` on an authenticated state whose
tokens carry a refresh token, with a succeeding gateway, performs no
`setLoading true` at entry nor anywhere else in its execution. -/
theorem c6_counterexample :
    (refreshTokenOp (ApiResult.success ⟨some sampleUser, freshTokens⟩)
        authedCtrl scenarioCStore).trace.head? ≠
      some (Eff.setLoading true) ∧
    ((refreshTokenOp (ApiResult.success ⟨some sampleUser, freshTokens⟩)
        authedCtrl scenarioCStore).trace.all
      (fun e => e != Eff.setLoading true)) = true := by
  decide

/-- C6 (amended): `login`, `loginWithBiometrics`, `loginWithGoogle`,
`loginWithMicrosoft` and `logout` set loading true as their first effect
and end with loading false on every path; `refreshToken` does not manage
the flag itself: on success it leaves loading exactly as it found it, and
on failure the full `logout` it performs leaves loading false. -/
theorem c6_loading_discipline (respL : ApiResult LoginResponse)
    (chal : ApiResult Unit) (cfg : AuthConfig)
    (respR : ApiResult RefreshResponse) (c : Ctrl) (st : Store) :
    ((loginOp respL c st).trace.head? = some (Eff.setLoading true) ∧
      (loginOp respL c st).ctrl.isLoading = false) ∧
    ((loginWithBiometricsOp chal respL c st).trace.head? =
        some (Eff.setLoading true) ∧
      (loginWithBiometricsOp chal respL c st).ctrl.isLoading = false) ∧
    ((loginWithGoogleOp cfg respL c st).trace.head? =
        some (Eff.setLoading true) ∧
      (loginWithGoogleOp cfg respL c st).ctrl.isLoading = false) ∧
    ((loginWithMicrosoftOp cfg respL c st).trace.head? =
        some (Eff.setLoading true) ∧
      (loginWithMicrosoftOp cfg respL c st).ctrl.isLoading = false) ∧
    ((logoutOp c st).trace.head? = some (Eff.setLoading true) ∧
      (logoutOp c st).ctrl.isLoading = false) ∧
    ((refreshTokenOp respR c st).raised = none →
      (refreshTokenOp respR c st).ctrl.isLoading = c.isLoading) ∧
    ((refreshTokenOp respR c st).raised ≠ none →
      (refreshTokenOp respR c st).ctrl.isLoading = false) := by
  refine ⟨?_, ?_, ?_, ?_, ?_, ?_, ?_⟩
  · cases respL <;> simp [loginOp, loginAdopt, loginCatch]
  · by_cases hb : isBiometricEnabledS st = false
    · simp [loginWithBiometricsOp, hb, loginCatch]
    · cases hcr : getBiometricCredentialsS st with
      | none => simp [loginWithBiometricsOp, hb, hcr, loginCatch]
      | some creds =>
          cases chal <;> cases respL <;>
            simp [loginWithBiometricsOp, hb, hcr, loginCatch, loginAdopt]
  · by_cases hg : jsTruthyS (cfg.oauthGoogle.map (fun g => g.clientId)) = false
    · simp [loginWithGoogleOp, hg, loginCatch]
    · cases respL <;> simp [loginWithGoogleOp, hg, loginCatch, loginAdopt]
  · by_cases hm :
      jsTruthyS (cfg.oauthMicrosoft.map (fun g => g.clientId)) = false
    · simp [loginWithMicrosoftOp, hm, loginCatch]
    · cases respL <;>
        simp [loginWithMicrosoftOp, hm, loginCatch, loginAdopt]
  · simp [logoutOp]
  · cases hrt : currentRefreshToken c with
    | none => simp [refreshTokenOp, hrt, refreshFailPath, logoutOp]
    | some rt =>
        by_cases he : rt = ""
        · simp [refreshTokenOp, hrt, he, refreshFailPath, logoutOp]
        · cases respR with
          | failure m =>
              simp [refreshTokenOp, hrt, he, refreshFailPath, logoutOp]
          | success r =>
              cases hu : r.user <;> simp [refreshTokenOp, hrt, he, hu]
  · cases hrt : currentRefreshToken c with
    | none => simp [refreshTokenOp, hrt, refreshFailPath, logoutOp]
    | some rt =>
        by_cases he : rt = ""
        · simp [refreshTokenOp, hrt, he, refreshFailPath, logoutOp]
        · cases respR with
          | failure m =>
              simp [refreshTokenOp, hrt, he, refreshFailPath, logoutOp]
          | success r =>
              cases hu : r.user <;> simp [refreshTokenOp, hrt, he, hu]

/-- C6 witness: the loading facts evaluated at a concrete succeeding
refresh over an authenticated state with loading false. -/
theorem c6_loading_discipline_witness :
    (refreshTokenOp (ApiResult.success ⟨some sampleUser, freshTokens⟩)
        authedCtrl scenarioCStore).ctrl.isLoading = authedCtrl.isLoading := by
  exact (c6_loading_discipline (ApiResult.success ⟨sampleUser, freshTokens⟩)
    (ApiResult.success ())
    ⟨"https://api.example.com", 60, true, true, none, none⟩
    (ApiResult.success ⟨some sampleUser, freshTokens⟩)
    authedCtrl scenarioCStore).2.2.2.2.2.1 (by decide)

/-- C1: `initializeAuth` never performs a gateway refresh — the
`refreshToken` it calls reads the refresh token from the still-empty
in-memory state, not from the stored record — so on any store whose stored
tokens are expired it raises internally, performs the full logout, and
ends Unauthenticated with all local state cleared, even when a valid
refresh token is stored and the gateway refresh would have succeeded. -/
theorem c1_init_refresh_never_runs (now : Int)
    (resp : ApiResult RefreshResponse) (st : Store) :
    countRefreshCalls (initializeAuthOp now resp st).trace = 0 ∧
    (∀ t, getTokensS st = some t → isTokenExpired t now = true →
      (initializeAuthOp now resp st).ctrl.user = none ∧
      (initializeAuthOp now resp st).ctrl.tokens = none ∧
      (initializeAuthOp now resp st).store = emptyStore) := by
  have hrr : (refreshTokenOp resp initCtrl st).raised =
      some "No refresh token available" := rfl
  have hrc : (refreshTokenOp resp initCtrl st).ctrl =
      { user := none, tokens := none, isLoading := false, error := none } :=
    rfl
  have hrs : (refreshTokenOp resp initCtrl st).store = emptyStore := rfl
  have hrt2 : (refreshTokenOp resp initCtrl st).trace =
      [Eff.setLoading true, Eff.clearAllW, Eff.setUserE none,
       Eff.setTokensE none, Eff.setErrorE none, Eff.setLoading false] := rfl
  unfold initializeAuthOp
  cases hg : getTokensS st with
  | none =>
      refine ⟨by simp [countRefreshCalls], ?_⟩
      intro t ht
      exact absurd ht (by simp)
  | some t0 =>
      by_cases he : isTokenExpired t0 now = false
      · cases hu : getUserS st with
        | none =>
            refine ⟨by simp [he, countRefreshCalls], ?_⟩
            intro t ht hexp
            injection ht with ht'
            subst ht'
            rw [hexp] at he
            exact absurd he (by decide)
        | some u =>
            refine ⟨by simp [he, countRefreshCalls], ?_⟩
            intro t ht hexp
            injection ht with ht'
            subst ht'
            rw [hexp] at he
            exact absurd he (by decide)
      · refine ⟨?_, ?_⟩
        · simp [he, hrr, hrc, hrs, hrt2, logoutOp, clearAllS, emptyStore,
            countRefreshCalls]
        · intro t ht hexp
          simp [he, hrr, hrc, hrs, hrt2, logoutOp, clearAllS, emptyStore]

/-- C1 witness: spec scenario C evaluated concretely — stored tokens with
`expiresAt = now - 1000` and a valid refresh token, a stored user, and a
gateway refresh stubbed to succeed: zero refresh calls are made and the
result is Unauthenticated with the store wiped. -/
theorem c1_init_refresh_never_runs_witness :
    countRefreshCalls (initializeAuthOp 1000000
      (ApiResult.success ⟨some sampleUser, freshTokens⟩)
      scenarioCStore).trace = 0 ∧
    (initializeAuthOp 1000000
      (ApiResult.success ⟨some sampleUser, freshTokens⟩)
      scenarioCStore).ctrl.tokens = none ∧
    (initializeAuthOp 1000000
      (ApiResult.success ⟨some sampleUser, freshTokens⟩)
      scenarioCStore).store = emptyStore := by
  have h := c1_init_refresh_never_runs 1000000
    (ApiResult.success ⟨some sampleUser, freshTokens⟩) scenarioCStore
  have h2 := h.2 expiredTokens (by decide) (by decide)
  exact ⟨h.1, h2.2.1, h2.2.2⟩

end AuthKit
